import Mathlib

/-!
Shallow embedding of the realtime room/combat coordinator implemented in
`src/api/socket.js`.  The two JavaScript `Map`s (`rooms`, `players`) are
modelled as association lists; `Date.now()` values and random draws are
passed as explicit parameters.  A room's `players` array holds the player
objects in JS; for the properties verified here only the connection ids and
order matter, so the embedding stores the ordered list of connection ids.
-/

/-- Association-list lookup, modelling `Map.get` (also `Map.has` via
`Option.isSome`). -/
def mapGet {α : Type} (m : List (String × α)) (k : String) : Option α :=
  match m with
  | [] => none
  | (k', v) :: rest => if k' = k then some v else mapGet rest k

/-- Removes every binding of `k`, modelling `Map.delete` (keys are unique in a
JS `Map`, so extensionally this is the same map afterwards). -/
def mapDelete {α : Type} (m : List (String × α)) (k : String) : List (String × α) :=
  match m with
  | [] => []
  | (k', v) :: rest => if k' = k then mapDelete rest k else (k', v) :: mapDelete rest k

/-- Binds `k` to `v`, modelling `Map.set`: extensionally, the map that returns
`v` at `k` and is unchanged elsewhere. -/
def mapSet {α : Type} (m : List (String × α)) (k : String) (v : α) : List (String × α) :=
  (k, v) :: mapDelete m k

/-- The `gameState` object created in the `create_room` handler and mutated by
the game handlers (`src/api/socket.js`, lines 81-89). -/
structure GameState where
  player1Health : Int
  player2Health : Int
  gameActive : Bool
  currentTurn : String
  round : Int
  player1Wins : Int
  player2Wins : Int
deriving DecidableEq

/-- The room object (`src/api/socket.js`, lines 78-92); `players` is the
ordered list of the member connection ids (index 0 = seat `player1`). -/
structure Room where
  code : String
  players : List String
  gameState : GameState
  createdAt : Int
  lastActivity : Int
deriving DecidableEq

/-- The player record stored in the `players` map (lines 53-59). -/
structure Player where
  id : String
  name : String
  room : Option String
  isPlayer1 : Bool
  connectedAt : Int
deriving DecidableEq

/-- The whole mutable server state: the two module-level `Map`s. -/
structure ServerState where
  rooms : List (String × Room)
  players : List (String × Player)
deriving DecidableEq

/-- Destination of an outbound message: `socket.emit` (private to one
connection) or `io.to(roomCode).emit` (room broadcast). -/
inductive Target where
  | toSocket (sid : String)
  | toRoom (code : String)
deriving DecidableEq

/-- The payload shapes actually emitted by the handlers. -/
inductive Payload where
  | empty
  | roomCodeP (code : String)
  | playersP (players : List String) (playerId : Option String)
  | gameStartP (players : List String) (gs : GameState)
  | errorP (message : String)
  | actionP (action : String) (player : String) (damage : Int)
  | updateP (p1h : Int) (p2h : Int) (turn : String) (winner : Option String)
      (w1 : Int) (w2 : Int)
deriving DecidableEq

/-- One outbound emission: target, event name, payload. -/
structure Emission where
  target : Target
  event : String
  payload : Payload
deriving DecidableEq

/-- `io.on('connection', ...)` body before the event handlers are installed:
registers the player with defaults (lines 53-59). -/
def handleConnect (st : ServerState) (sid : String) (now : Int) : ServerState :=
  let p : Player :=
    { id := sid, name := "Anonymous", room := none, isPlayer1 := false, connectedAt := now }
  { st with players := mapSet st.players sid p }

/-- The `set_name` handler (lines 62-69).  `data.name || 'Anonymous'`: the only
falsy string is the empty string. -/
def handleSetName (st : ServerState) (sid : String) (name : String) : ServerState :=
  match mapGet st.players sid with
  | none => st
  | some player =>
      let p := { player with name := if name = "" then "Anonymous" else name }
      { st with players := mapSet st.players sid p }

/-- The `create_room` handler (lines 72-107).  The room code produced by
`generateRoomCode()` is passed in as `roomCode`; the generator's freshness
guarantee (proved separately) is imposed as a side condition of the step
relation. -/
def handleCreateRoom (st : ServerState) (sid : String) (roomCode : String) (now : Int) :
    ServerState × List Emission :=
  match mapGet st.players sid with
  | none => (st, [])
  | some player =>
      let room : Room :=
        { code := roomCode
          players := [sid]
          gameState :=
            { player1Health := 100, player2Health := 100, gameActive := false
              currentTurn := "player1", round := 1, player1Wins := 0, player2Wins := 0 }
          createdAt := now
          lastActivity := now }
      let player' := { player with room := some roomCode, isPlayer1 := true }
      ({ rooms := mapSet st.rooms roomCode room, players := mapSet st.players sid player' },
       [⟨Target.toSocket sid, "room_created", Payload.roomCodeP roomCode⟩,
        ⟨Target.toRoom roomCode, "player_joined", Payload.playersP [sid] (some sid)⟩])

/-- The `join_room` handler (lines 110-140). -/
def handleJoinRoom (st : ServerState) (sid : String) (roomCode : String) (now : Int) :
    ServerState × List Emission :=
  match mapGet st.players sid with
  | none => (st, [])
  | some player =>
      match mapGet st.rooms roomCode with
      | none => (st, [⟨Target.toSocket sid, "room_not_found", Payload.empty⟩])
      | some room =>
          if 2 ≤ room.players.length then
            (st, [⟨Target.toSocket sid, "room_full", Payload.empty⟩])
          else
            let player' := { player with room := some roomCode, isPlayer1 := false }
            let room' := { room with players := room.players ++ [sid], lastActivity := now }
            ({ rooms := mapSet st.rooms roomCode room',
               players := mapSet st.players sid player' },
             [⟨Target.toSocket sid, "room_joined", Payload.roomCodeP roomCode⟩,
              ⟨Target.toRoom roomCode, "player_joined",
                Payload.playersP room'.players (some sid)⟩])

/-- The `leave_room` handler (lines 143-172).  The room is looked up through
`player.room`; `data.roomCode` is only used for the transport-level
`socket.leave` and therefore does not appear in the state transition. -/
def handleLeaveRoom (st : ServerState) (sid : String) (_dataRoomCode : String) (now : Int) :
    ServerState × List Emission :=
  match mapGet st.players sid with
  | none => (st, [])
  | some player =>
      match player.room with
      | none => (st, [])
      | some rc =>
          let roomsEms : List (String × Room) × List Emission :=
            match mapGet st.rooms rc with
            | none => (st.rooms, [])
            | some room =>
                let remaining := room.players.filter (fun pid => pid ≠ sid)
                if remaining.length = 0 then (mapDelete st.rooms rc, [])
                else
                  let gs := { room.gameState with
                    gameActive := false
                    player1Health := 100
                    player2Health := 100 }
                  let room' := { room with
                    players := remaining
                    lastActivity := now
                    gameState := gs }
                  (mapSet st.rooms rc room',
                   [⟨Target.toRoom rc, "player_left", Payload.playersP remaining none⟩])
          let player' := { player with room := none }
          ({ rooms := roomsEms.1, players := mapSet st.players sid player' },
           roomsEms.2)

/-- The `start_game` handler (lines 175-191). -/
def handleStartGame (st : ServerState) (roomCode : String) (now : Int) :
    ServerState × List Emission :=
  match mapGet st.rooms roomCode with
  | none => (st, [])
  | some room =>
      if room.players.length ≠ 2 then (st, [])
      else
        let gs := { room.gameState with
          gameActive := true
          player1Health := 100
          player2Health := 100
          currentTurn := "player1" }
        let room' := { room with lastActivity := now, gameState := gs }
        ({ st with rooms := mapSet st.rooms roomCode room' },
         [⟨Target.toRoom roomCode, "game_start",
            Payload.gameStartP room'.players room'.gameState⟩])

/-- The payload of a `game_action` event (line 194: `data.roomCode`,
`data.action`, `data.player`). -/
structure GameActionData where
  roomCode : String
  action : String
  player : String
deriving DecidableEq

/-- The damage switch (lines 213-226).  `Math.random()` is modelled by the
rational `q` with `0 ≤ q < 1`; `Math.floor(Math.random() * n) + b` becomes
`Int.floor (q * n) + b`. -/
def damageFor (action : String) (q : ℚ) : Int :=
  if action = "punch" then Int.floor (q * 15) + 5
  else if action = "kick" then Int.floor (q * 20) + 10
  else if action = "special" then Int.floor (q * 25) + 15
  else 10

/-- Lines 228-255 of the `game_action` handler: damage application (with the
`Math.max(0, ...)` floor), the unconditional turn switch keyed on
`data.player`, and the winner check; returns the updated game state and the
declared winner (if any). -/
def resolveDamage (gs : GameState) (dataPlayer : String) (damage : Int) :
    GameState × Option String :=
  let gs1 : GameState :=
    if dataPlayer = "player1" then
      { gs with player2Health := max 0 (gs.player2Health - damage) }
    else
      { gs with player1Health := max 0 (gs.player1Health - damage) }
  let gs2 : GameState := { gs1 with
    currentTurn := if dataPlayer = "player1" then "player2" else "player1" }
  let winner : Option String :=
    if gs2.player1Health ≤ 0 then some "player2"
    else if gs2.player2Health ≤ 0 then some "player1"
    else none
  let gs3 : GameState :=
    if gs2.player1Health ≤ 0 then
      { gs2 with player2Wins := gs2.player2Wins + 1, gameActive := false }
    else if gs2.player2Health ≤ 0 then
      { gs2 with player1Wins := gs2.player1Wins + 1, gameActive := false }
    else gs2
  (gs3, winner)

/-- The `game_action` handler (lines 194-270).  `room.players[0].id` on an
empty player array would be a JavaScript `TypeError`; that (and only that)
is modelled by the `none` result. -/
def handleGameAction (st : ServerState) (sid : String) (data : GameActionData)
    (now : Int) (q : ℚ) : Option (ServerState × List Emission) :=
  match mapGet st.rooms data.roomCode with
  | none => some (st, [])
  | some room =>
      if room.gameState.gameActive = false then some (st, [])
      else
        match mapGet st.players sid with
        | none => some (st, [])
        | some _player =>
            match room.players.head? with
            | none => none
            | some firstId =>
                let expectedTurn := if firstId = sid then "player1" else "player2"
                if room.gameState.currentTurn ≠ expectedTurn then
                  some (st, [⟨Target.toSocket sid, "error", Payload.errorP "Not your turn!"⟩])
                else
                  let damage := damageFor data.action q
                  let rd := resolveDamage room.gameState data.player damage
                  let room' := { room with gameState := rd.1, lastActivity := now }
                  some ({ st with rooms := mapSet st.rooms data.roomCode room' },
                    [⟨Target.toRoom data.roomCode, "game_action",
                       Payload.actionP data.action data.player damage⟩,
                     ⟨Target.toRoom data.roomCode, "game_update",
                       Payload.updateP rd.1.player1Health rd.1.player2Health rd.1.currentTurn
                         rd.2 rd.1.player1Wins rd.1.player2Wins⟩])

/-- The `restart_game` handler (lines 273-290): like `start_game` but also
increments the round counter. -/
def handleRestartGame (st : ServerState) (roomCode : String) (now : Int) :
    ServerState × List Emission :=
  match mapGet st.rooms roomCode with
  | none => (st, [])
  | some room =>
      if room.players.length ≠ 2 then (st, [])
      else
        let gs := { room.gameState with
          player1Health := 100
          player2Health := 100
          gameActive := true
          currentTurn := "player1"
          round := room.gameState.round + 1 }
        let room' := { room with lastActivity := now, gameState := gs }
        ({ st with rooms := mapSet st.rooms roomCode room' },
         [⟨Target.toRoom roomCode, "game_start",
            Payload.gameStartP room'.players room'.gameState⟩])

/-- The `disconnect` handler (lines 293-320): leave-style removal (but only
`gameActive` is reset, not the health values), then `players.delete`. -/
def handleDisconnect (st : ServerState) (sid : String) (now : Int) :
    ServerState × List Emission :=
  let roomsEms : List (String × Room) × List Emission :=
    match mapGet st.players sid with
    | none => (st.rooms, [])
    | some player =>
        match player.room with
        | none => (st.rooms, [])
        | some rc =>
            match mapGet st.rooms rc with
            | none => (st.rooms, [])
            | some room =>
                let remaining := room.players.filter (fun pid => pid ≠ sid)
                if remaining.length = 0 then (mapDelete st.rooms rc, [])
                else
                  let gs := { room.gameState with gameActive := false }
                  let room' := { room with
                    players := remaining
                    lastActivity := now
                    gameState := gs }
                  (mapSet st.rooms rc room',
                   [⟨Target.toRoom rc, "player_left", Payload.playersP remaining none⟩])
  ({ rooms := roomsEms.1, players := mapDelete st.players sid }, roomsEms.2)

/-- The periodic cleanup sweep (lines 23-31): delete rooms that are empty and
idle for more than five minutes. -/
def reaperSweep (st : ServerState) (now : Int) : ServerState :=
  { st with rooms := st.rooms.filter (fun p =>
      !(decide (p.2.players.length = 0 ∧ 5 * 60 * 1000 < now - p.2.lastActivity))) }

/-- A 4-draw attempt of `generateRoomCode` (lines 8-20): each draw indexes the
26-letter alphabet. -/
def codeChar (i : Fin 26) : Char :=
  "ABCDEFGHIJKLMNOPQRSTUVWXYZ".toList.getD i.val 'A'

/-- One candidate code built from 4 independent draws (the `for` loop of
lines 11-13). -/
def mkCode (d : Fin 26 × Fin 26 × Fin 26 × Fin 26) : String :=
  String.mk [codeChar d.1, codeChar d.2.1, codeChar d.2.2.1, codeChar d.2.2.2]

/-- `generateRoomCode` (lines 8-20): retry (the recursive call of line 17) as
long as the candidate collides with a live room; the supplied draw list models
the stream of random draws, `none` meaning the modelled randomness ran out
(the JS function retries unboundedly). -/
def generateRoomCode (roomsMap : List (String × Room)) :
    List (Fin 26 × Fin 26 × Fin 26 × Fin 26) → Option String
  | [] => none
  | d :: ds =>
      let code := mkCode d
      if (mapGet roomsMap code).isSome then generateRoomCode roomsMap ds
      else some code

/-- The inbound events of the socket protocol, with the implicit inputs
(timestamps, random draws, the generated room code) made explicit. -/
inductive Event where
  | connect (sid : String) (now : Int)
  | set_name (sid : String) (name : String)
  | create_room (sid : String) (code : String) (now : Int)
  | join_room (sid : String) (roomCode : String) (now : Int)
  | leave_room (sid : String) (roomCode : String) (now : Int)
  | start_game (roomCode : String) (now : Int)
  | game_action (sid : String) (data : GameActionData) (now : Int) (q : ℚ)
  | restart_game (roomCode : String) (now : Int)
  | disconnect (sid : String) (now : Int)
  | reap (now : Int)

/-- Environment-provided side conditions of an event: the room code passed to
`create_room` is produced by `generateRoomCode` and hence fresh, and
`Math.random()` yields a value in `[0, 1)`. -/
def eventValid (st : ServerState) (e : Event) : Prop :=
  match e with
  | Event.create_room _ code _ => mapGet st.rooms code = none
  | Event.game_action _ _ _ q => 0 ≤ q ∧ q < 1
  | _ => True

/-- One dispatch of an inbound event; `none` models a handler throwing. -/
def stepFn (st : ServerState) (e : Event) : Option (ServerState × List Emission) :=
  match e with
  | Event.connect sid now => some (handleConnect st sid now, [])
  | Event.set_name sid name => some (handleSetName st sid name, [])
  | Event.create_room sid code now => some (handleCreateRoom st sid code now)
  | Event.join_room sid roomCode now => some (handleJoinRoom st sid roomCode now)
  | Event.leave_room sid roomCode now => some (handleLeaveRoom st sid roomCode now)
  | Event.start_game roomCode now => some (handleStartGame st roomCode now)
  | Event.game_action sid data now q => handleGameAction st sid data now q
  | Event.restart_game roomCode now => some (handleRestartGame st roomCode now)
  | Event.disconnect sid now => some (handleDisconnect st sid now)
  | Event.reap now => some (reaperSweep st now, [])

/-- The states of the server reachable from the empty initial state (lines
4-5: both maps start empty) by any sequence of events. -/
inductive Reachable : ServerState → Prop where
  | init : Reachable { rooms := [], players := [] }
  | step (st : ServerState) (e : Event) (st' : ServerState) (ems : List Emission) :
      Reachable st → eventValid st e → stepFn st e = some (st', ems) → Reachable st'

/-- The per-room invariant: a stored room is never empty, never has more than
2 players, and an active game has both health values positive. -/
def roomOK (r : Room) : Prop :=
  r.players ≠ [] ∧ r.players.length ≤ 2 ∧
  (r.gameState.gameActive = true →
    0 < r.gameState.player1Health ∧ 0 < r.gameState.player2Health)

/-- The invariant of the room store. -/
def InvRooms (m : List (String × Room)) : Prop := ∀ p ∈ m, roomOK p.2

/-- The global state invariant. -/
def StateInv (st : ServerState) : Prop := InvRooms st.rooms

lemma mapGet_mem {α : Type} {m : List (String × α)} {k : String} {v : α}
    (h : mapGet m k = some v) : (k, v) ∈ m := by
  induction m with
  | nil => simp [mapGet] at h
  | cons p rest ih =>
      obtain ⟨k', v'⟩ := p
      by_cases hk : k' = k
      · subst hk
        simp [mapGet] at h
        simp [h]
      · simp [mapGet, hk] at h
        exact List.mem_cons_of_mem _ (ih h)

lemma mem_mapDelete {α : Type} {m : List (String × α)} {k : String} {p : String × α}
    (h : p ∈ mapDelete m k) : p ∈ m := by
  induction m with
  | nil => simp [mapDelete] at h
  | cons q rest ih =>
      obtain ⟨k', v'⟩ := q
      by_cases hk : k' = k
      · subst hk
        simp only [mapDelete, if_pos rfl] at h
        exact List.mem_cons_of_mem _ (ih h)
      · simp only [mapDelete, if_neg hk] at h
        rcases List.mem_cons.mp h with h' | h'
        · exact h' ▸ List.mem_cons_self _ _
        · exact List.mem_cons_of_mem _ (ih h')

lemma mem_mapSet {α : Type} {m : List (String × α)} {k : String} {v : α} {p : String × α}
    (h : p ∈ mapSet m k v) : p = (k, v) ∨ p ∈ m := by
  rcases List.mem_cons.mp h with h' | h'
  · exact Or.inl h'
  · exact Or.inr (mem_mapDelete h')

lemma mapGet_mapSet_self {α : Type} {m : List (String × α)} {k : String} {v : α} :
    mapGet (mapSet m k v) k = some v := by
  simp [mapSet, mapGet]

lemma invRooms_mapSet {m : List (String × Room)} {k : String} {r : Room}
    (h : InvRooms m) (hr : roomOK r) : InvRooms (mapSet m k r) := by
  intro p hp
  rcases mem_mapSet hp with rfl | hp'
  · exact hr
  · exact h p hp'

lemma invRooms_mapDelete {m : List (String × Room)} {k : String}
    (h : InvRooms m) : InvRooms (mapDelete m k) :=
  fun p hp => h p (mem_mapDelete hp)

lemma inv_connect {st : ServerState} {sid : String} {now : Int}
    (h : StateInv st) : StateInv (handleConnect st sid now) := h

lemma inv_setName {st : ServerState} {sid name : String}
    (h : StateInv st) : StateInv (handleSetName st sid name) := by
  unfold handleSetName
  split
  · exact h
  · exact h

lemma inv_create {st : ServerState} {sid code : String} {now : Int}
    (h : StateInv st) : StateInv (handleCreateRoom st sid code now).1 := by
  unfold handleCreateRoom
  split
  · exact h
  · refine invRooms_mapSet h ?_
    refine ⟨by simp, by simp, ?_⟩
    intro ha
    exact absurd ha (by simp)

lemma inv_join {st : ServerState} {sid rc : String} {now : Int}
    (h : StateInv st) : StateInv (handleJoinRoom st sid rc now).1 := by
  unfold handleJoinRoom
  split
  · exact h
  · split
    · exact h
    next room hroom =>
      split
      · exact h
      next hlen =>
        refine invRooms_mapSet h ?_
        obtain ⟨hne, hle, hact⟩ := h _ (mapGet_mem hroom)
        refine ⟨by simp, ?_, ?_⟩
        · simp only [List.length_append, List.length_cons, List.length_nil]
          omega
        · intro ha
          exact hact ha

lemma inv_leave {st : ServerState} {sid drc : String} {now : Int}
    (h : StateInv st) : StateInv (handleLeaveRoom st sid drc now).1 := by
  unfold handleLeaveRoom
  split
  · exact h
  · split
    · exact h
    next rc hrc =>
      cases hm : mapGet st.rooms rc with
      | none =>
          simp only [hm]
          exact h
      | some room =>
          simp only [hm]
          by_cases hrem : (room.players.filter (fun pid => pid ≠ sid)).length = 0
          · simp only [if_pos hrem]
            exact invRooms_mapDelete h
          · simp only [if_neg hrem]
            refine invRooms_mapSet h ?_
            obtain ⟨hne, hle, _⟩ := h _ (mapGet_mem hm)
            refine ⟨?_, ?_, ?_⟩
            · intro hnil
              apply hrem
              have hnil' : room.players.filter (fun pid => pid ≠ sid) = [] := hnil
              rw [hnil']
              rfl
            · exact le_trans (List.length_filter_le _ _) hle
            · intro ha
              exact absurd ha (by simp)

lemma inv_start {st : ServerState} {rc : String} {now : Int}
    (h : StateInv st) : StateInv (handleStartGame st rc now).1 := by
  unfold handleStartGame
  split
  · exact h
  next room hroom =>
    split
    · exact h
    · refine invRooms_mapSet h ?_
      obtain ⟨hne, hle, _⟩ := h _ (mapGet_mem hroom)
      exact ⟨hne, hle, fun _ => by norm_num⟩

lemma inv_restart {st : ServerState} {rc : String} {now : Int}
    (h : StateInv st) : StateInv (handleRestartGame st rc now).1 := by
  unfold handleRestartGame
  split
  · exact h
  next room hroom =>
    split
    · exact h
    · refine invRooms_mapSet h ?_
      obtain ⟨hne, hle, _⟩ := h _ (mapGet_mem hroom)
      exact ⟨hne, hle, fun _ => by norm_num⟩

lemma inv_disconnect {st : ServerState} {sid : String} {now : Int}
    (h : StateInv st) : StateInv (handleDisconnect st sid now).1 := by
  unfold handleDisconnect
  split
  · exact h
  next player hplayer =>
    cases hr : player.room with
    | none =>
        simp only [hr]
        exact h
    | some rc =>
        simp only [hr]
        cases hm : mapGet st.rooms rc with
        | none =>
            simp only [hm]
            exact h
        | some room =>
            simp only [hm]
            by_cases hrem : (room.players.filter (fun pid => pid ≠ sid)).length = 0
            · simp only [if_pos hrem]
              exact invRooms_mapDelete h
            · simp only [if_neg hrem]
              refine invRooms_mapSet h ?_
              obtain ⟨hne, hle, _⟩ := h _ (mapGet_mem hm)
              refine ⟨?_, ?_, ?_⟩
              · intro hnil
                apply hrem
                have hnil' : room.players.filter (fun pid => pid ≠ sid) = [] := hnil
                rw [hnil']
                rfl
              · exact le_trans (List.length_filter_le _ _) hle
              · intro ha
                exact absurd ha (by simp)

lemma inv_reap {st : ServerState} {now : Int}
    (h : StateInv st) : StateInv (reaperSweep st now) := by
  intro p hp
  exact h p (List.mem_of_mem_filter hp)

lemma resolveDamage_p1_selfKO {gs : GameState} {dp : String} {d : Int}
    (hdp : dp = "player1") (hc1 : gs.player1Health ≤ 0) :
    resolveDamage gs dp d =
      ({ gs with
         player2Health := max 0 (gs.player2Health - d)
         currentTurn := "player2"
         gameActive := false
         player2Wins := gs.player2Wins + 1 }, some "player2") := by
  unfold resolveDamage
  simp only [if_pos hdp]
  simp only [if_pos hc1]

lemma resolveDamage_p1_KO {gs : GameState} {dp : String} {d : Int}
    (hdp : dp = "player1") (hc1 : ¬ gs.player1Health ≤ 0)
    (hc2 : max 0 (gs.player2Health - d) ≤ 0) :
    resolveDamage gs dp d =
      ({ gs with
         player2Health := 0
         currentTurn := "player2"
         gameActive := false
         player1Wins := gs.player1Wins + 1 }, some "player1") := by
  have h0 : max 0 (gs.player2Health - d) = 0 := le_antisymm hc2 (le_max_left _ _)
  unfold resolveDamage
  simp only [if_pos hdp]
  simp only [if_neg hc1, if_pos hc2, h0]
  norm_num

lemma resolveDamage_p1_noKO {gs : GameState} {dp : String} {d : Int}
    (hdp : dp = "player1") (hc1 : ¬ gs.player1Health ≤ 0)
    (hc2 : ¬ max 0 (gs.player2Health - d) ≤ 0) :
    resolveDamage gs dp d =
      ({ gs with
         player2Health := max 0 (gs.player2Health - d)
         currentTurn := "player2" }, none) := by
  unfold resolveDamage
  simp only [if_pos hdp]
  simp only [if_neg hc1, if_neg hc2]

lemma resolveDamage_p2_selfKO {gs : GameState} {dp : String} {d : Int}
    (hdp : dp ≠ "player1") (hc2 : gs.player2Health ≤ 0)
    (hc1 : ¬ max 0 (gs.player1Health - d) ≤ 0) :
    resolveDamage gs dp d =
      ({ gs with
         player1Health := max 0 (gs.player1Health - d)
         currentTurn := "player1"
         gameActive := false
         player1Wins := gs.player1Wins + 1 }, some "player1") := by
  unfold resolveDamage
  simp only [if_neg hdp]
  simp only [if_neg hc1, if_pos hc2]

lemma resolveDamage_p2_KO {gs : GameState} {dp : String} {d : Int}
    (hdp : dp ≠ "player1") (hc1 : max 0 (gs.player1Health - d) ≤ 0) :
    resolveDamage gs dp d =
      ({ gs with
         player1Health := 0
         currentTurn := "player1"
         gameActive := false
         player2Wins := gs.player2Wins + 1 }, some "player2") := by
  have h0 : max 0 (gs.player1Health - d) = 0 := le_antisymm hc1 (le_max_left _ _)
  unfold resolveDamage
  simp only [if_neg hdp]
  simp only [if_pos hc1, h0]
  norm_num

lemma resolveDamage_p2_noKO {gs : GameState} {dp : String} {d : Int}
    (hdp : dp ≠ "player1") (hc1 : ¬ max 0 (gs.player1Health - d) ≤ 0)
    (hc2 : ¬ gs.player2Health ≤ 0) :
    resolveDamage gs dp d =
      ({ gs with
         player1Health := max 0 (gs.player1Health - d)
         currentTurn := "player1" }, none) := by
  unfold resolveDamage
  simp only [if_neg hdp]
  simp only [if_neg hc1, if_neg hc2]

lemma resolveDamage_active {gs : GameState} {dp : String} {d : Int}
    (h : (resolveDamage gs dp d).1.gameActive = true) :
    0 < (resolveDamage gs dp d).1.player1Health ∧
      0 < (resolveDamage gs dp d).1.player2Health := by
  by_cases hdp : dp = "player1"
  · by_cases hc1 : gs.player1Health ≤ 0
    · rw [resolveDamage_p1_selfKO hdp hc1] at h
      simp at h
    · by_cases hc2 : max 0 (gs.player2Health - d) ≤ 0
      · rw [resolveDamage_p1_KO hdp hc1 hc2] at h
        simp at h
      · rw [resolveDamage_p1_noKO hdp hc1 hc2]
        exact ⟨not_le.mp hc1, not_le.mp hc2⟩
  · by_cases hc1 : max 0 (gs.player1Health - d) ≤ 0
    · rw [resolveDamage_p2_KO hdp hc1] at h
      simp at h
    · by_cases hc2 : gs.player2Health ≤ 0
      · rw [resolveDamage_p2_selfKO hdp hc2 hc1] at h
        simp at h
      · rw [resolveDamage_p2_noKO hdp hc1 hc2]
        exact ⟨not_le.mp hc1, not_le.mp hc2⟩

lemma inv_gameAction {st : ServerState} {sid : String} {data : GameActionData} {now : Int}
    {q : ℚ} {st' : ServerState} {ems : List Emission}
    (h : StateInv st) (hstep : handleGameAction st sid data now q = some (st', ems)) :
    StateInv st' := by
  unfold handleGameAction at hstep
  cases hroom : mapGet st.rooms data.roomCode with
  | none =>
      rw [hroom] at hstep
      simp only [Option.some.injEq, Prod.mk.injEq] at hstep
      obtain ⟨h1, -⟩ := hstep
      subst h1
      exact h
  | some room =>
      rw [hroom] at hstep
      by_cases hact : room.gameState.gameActive = false
      · simp only [Option.some.injEq, Prod.mk.injEq, if_pos hact] at hstep
        obtain ⟨h1, -⟩ := hstep
        subst h1
        exact h
      · simp only [if_neg hact] at hstep
        cases hpl : mapGet st.players sid with
        | none =>
            rw [hpl] at hstep
            simp only [Option.some.injEq, Prod.mk.injEq] at hstep
            obtain ⟨h1, -⟩ := hstep
            subst h1
            exact h
        | some player =>
            rw [hpl] at hstep
            cases hhd : room.players.head? with
            | none =>
                rw [hhd] at hstep
                exact Option.noConfusion hstep
            | some firstId =>
                rw [hhd] at hstep
                by_cases hturn :
                    room.gameState.currentTurn ≠ (if firstId = sid then "player1" else "player2")
                · simp only [Option.some.injEq, Prod.mk.injEq, if_pos hturn] at hstep
                  obtain ⟨h1, -⟩ := hstep
                  subst h1
                  exact h
                · simp only [Option.some.injEq, Prod.mk.injEq, if_neg hturn] at hstep
                  obtain ⟨h1, -⟩ := hstep
                  subst h1
                  obtain ⟨hne, hle, -⟩ := h _ (mapGet_mem hroom)
                  refine invRooms_mapSet h ?_
                  refine ⟨hne, hle, ?_⟩
                  intro hact3
                  exact resolveDamage_active hact3

lemma reachable_inv {st : ServerState} (h : Reachable st) : StateInv st := by
  induction h with
  | init =>
      intro p hp
      cases hp
  | step st e st' ems hR hv hs ih =>
      cases e with
      | connect sid now =>
          simp only [stepFn, Option.some.injEq, Prod.mk.injEq] at hs
          obtain ⟨h1, -⟩ := hs
          subst h1
          exact inv_connect ih
      | set_name sid name =>
          simp only [stepFn, Option.some.injEq, Prod.mk.injEq] at hs
          obtain ⟨h1, -⟩ := hs
          subst h1
          exact inv_setName ih
      | create_room sid code now =>
          simp only [stepFn, Option.some.injEq] at hs
          have h1 : st' = (handleCreateRoom st sid code now).1 := by rw [hs]
          rw [h1]
          exact inv_create ih
      | join_room sid roomCode now =>
          simp only [stepFn, Option.some.injEq] at hs
          have h1 : st' = (handleJoinRoom st sid roomCode now).1 := by rw [hs]
          rw [h1]
          exact inv_join ih
      | leave_room sid roomCode now =>
          simp only [stepFn, Option.some.injEq] at hs
          have h1 : st' = (handleLeaveRoom st sid roomCode now).1 := by rw [hs]
          rw [h1]
          exact inv_leave ih
      | start_game roomCode now =>
          simp only [stepFn, Option.some.injEq] at hs
          have h1 : st' = (handleStartGame st roomCode now).1 := by rw [hs]
          rw [h1]
          exact inv_start ih
      | game_action sid data now q =>
          simp only [stepFn] at hs
          exact inv_gameAction ih hs
      | restart_game roomCode now =>
          simp only [stepFn, Option.some.injEq] at hs
          have h1 : st' = (handleRestartGame st roomCode now).1 := by rw [hs]
          rw [h1]
          exact inv_restart ih
      | disconnect sid now =>
          simp only [stepFn, Option.some.injEq] at hs
          have h1 : st' = (handleDisconnect st sid now).1 := by rw [hs]
          rw [h1]
          exact inv_disconnect ih
      | reap now =>
          simp only [stepFn, Option.some.injEq, Prod.mk.injEq] at hs
          obtain ⟨h1, -⟩ := hs
          subst h1
          exact inv_reap ih

lemma gameAction_no_crash {st : ServerState} (h : StateInv st) (sid : String)
    (data : GameActionData) (now : Int) (q : ℚ) :
    handleGameAction st sid data now q ≠ none := by
  unfold handleGameAction
  cases hroom : mapGet st.rooms data.roomCode with
  | none => simp
  | some room =>
      by_cases hact : room.gameState.gameActive = false
      · simp [hact]
      · cases hpl : mapGet st.players sid with
        | none => simp [hact, hpl]
        | some player =>
            obtain ⟨hne, -, -⟩ := h _ (mapGet_mem hroom)
            cases hhd : room.players.head? with
            | none => exact absurd (List.head?_eq_none_iff.mp hhd) hne
            | some firstId =>
                by_cases hturn :
                    room.gameState.currentTurn ≠
                      (if firstId = sid then "player1" else "player2")
                · simp [hact, hpl, hhd, hturn]
                · simp [hact, hpl, hhd, hturn]

lemma stepFn_no_crash {st : ServerState} (h : StateInv st) (e : Event) :
    stepFn st e ≠ none := by
  cases e with
  | game_action sid data now q =>
      simpa only [stepFn] using gameAction_no_crash h sid data now q
  | connect sid now => simp [stepFn]
  | set_name sid name => simp [stepFn]
  | create_room sid code now => simp [stepFn]
  | join_room sid roomCode now => simp [stepFn]
  | leave_room sid roomCode now => simp [stepFn]
  | start_game roomCode now => simp [stepFn]
  | restart_game roomCode now => simp [stepFn]
  | disconnect sid now => simp [stepFn]
  | reap now => simp [stepFn]

lemma floor_scale_bounds {q : ℚ} (h0 : 0 ≤ q) (h1 : q < 1) {n : ℕ} (hn : 0 < n) :
    0 ≤ Int.floor (q * (n : ℚ)) ∧ Int.floor (q * (n : ℚ)) ≤ (n : ℤ) - 1 := by
  have hnq : (0 : ℚ) < (n : ℚ) := by exact_mod_cast hn
  constructor
  · exact Int.floor_nonneg.mpr (mul_nonneg h0 (le_of_lt hnq))
  · have hlt : q * (n : ℚ) < (n : ℚ) := by
      calc q * (n : ℚ) < 1 * (n : ℚ) := mul_lt_mul_of_pos_right h1 hnq
        _ = (n : ℚ) := one_mul _
    have h2 : Int.floor (q * (n : ℚ)) < (n : ℤ) := by
      apply Int.floor_lt.mpr
      push_cast
      exact hlt
    omega

lemma damageFor_punch (q : ℚ) : damageFor "punch" q = Int.floor (q * 15) + 5 := by
  unfold damageFor
  rw [if_pos rfl]

lemma damageFor_kick (q : ℚ) : damageFor "kick" q = Int.floor (q * 20) + 10 := by
  unfold damageFor
  rw [if_neg (by decide), if_pos rfl]

lemma damageFor_special (q : ℚ) : damageFor "special" q = Int.floor (q * 25) + 15 := by
  unfold damageFor
  rw [if_neg (by decide), if_neg (by decide), if_pos rfl]

lemma codeChar_range : ∀ i : Fin 26, 'A' ≤ codeChar i ∧ codeChar i ≤ 'Z' := by decide

lemma codeChar_inj : Function.Injective codeChar := by decide

/-- C1: the damage switch of the `game_action` handler.  The spec (and the
code's own inline comments, lines 216-222) claims the inclusive ranges
[5,20] / [10,30] / [15,40], but `Math.floor(Math.random() * n) + b` with
`Math.random() < 1` can never reach the claimed upper bounds: the actual
inclusive ranges are [5,19] / [10,29] / [15,39] (each endpoint attained),
while any unrecognized action kind yields the fixed default damage 10. -/
theorem damageFor_ranges (q : ℚ) (h0 : 0 ≤ q) (h1 : q < 1) (a : String)
    (ha1 : a ≠ "punch") (ha2 : a ≠ "kick") (ha3 : a ≠ "special") :
    (5 ≤ damageFor "punch" q ∧ damageFor "punch" q ≤ 19) ∧
    (10 ≤ damageFor "kick" q ∧ damageFor "kick" q ≤ 29) ∧
    (15 ≤ damageFor "special" q ∧ damageFor "special" q ≤ 39) ∧
    damageFor a q = 10 ∧
    damageFor "punch" (14 / 15 : ℚ) = 19 ∧
    damageFor "kick" (19 / 20 : ℚ) = 29 ∧
    damageFor "special" (24 / 25 : ℚ) = 39 := by
  have hp := floor_scale_bounds h0 h1 (n := 15) (by norm_num)
  have hk := floor_scale_bounds h0 h1 (n := 20) (by norm_num)
  have hs := floor_scale_bounds h0 h1 (n := 25) (by norm_num)
  push_cast at hp hk hs
  refine ⟨?_, ?_, ?_, ?_, ?_, ?_, ?_⟩
  · rw [damageFor_punch]
    omega
  · rw [damageFor_kick]
    omega
  · rw [damageFor_special]
    omega
  · simp only [damageFor, if_neg ha1, if_neg ha2, if_neg ha3]
  · rw [damageFor_punch]
    norm_num
  · rw [damageFor_kick]
    norm_num
  · rw [damageFor_special]
    norm_num

/-- Witness for `damageFor_ranges` at the concrete draw q = 1/2 and the
unrecognized action kind "block". -/
theorem damageFor_ranges_witness :
    ((0 : ℚ) ≤ 1 / 2 ∧ (1 / 2 : ℚ) < 1 ∧ ("block" : String) ≠ "punch") ∧
    ((5 ≤ damageFor "punch" (1 / 2) ∧ damageFor "punch" (1 / 2) ≤ 19) ∧
     (10 ≤ damageFor "kick" (1 / 2) ∧ damageFor "kick" (1 / 2) ≤ 29) ∧
     (15 ≤ damageFor "special" (1 / 2) ∧ damageFor "special" (1 / 2) ≤ 39) ∧
     damageFor "block" (1 / 2) = 10 ∧
     damageFor "punch" (14 / 15 : ℚ) = 19 ∧
     damageFor "kick" (19 / 20 : ℚ) = 29 ∧
     damageFor "special" (24 / 25 : ℚ) = 39) :=
  ⟨⟨by norm_num, by norm_num, by decide⟩,
   damageFor_ranges (1 / 2) (by norm_num) (by norm_num) "block"
     (by decide) (by decide) (by decide)⟩

/-- C9: every code returned by the room-code generator has length exactly 4,
consists of characters indexed uniformly in the 26-letter uppercase
alphabet (the indexing `codeChar` is injective, so the per-character
distribution is uniform), and does not collide with any room currently in
the store (on collision the generator retries with the next draws). -/
theorem generateRoomCode_spec (roomsMap : List (String × Room))
    (draws : List (Fin 26 × Fin 26 × Fin 26 × Fin 26)) (c : String)
    (h : generateRoomCode roomsMap draws = some c) :
    c.length = 4 ∧ (∀ ch ∈ c.data, 'A' ≤ ch ∧ ch ≤ 'Z') ∧
    mapGet roomsMap c = none ∧ Function.Injective codeChar := by
  induction draws with
  | nil => simp [generateRoomCode] at h
  | cons d ds ih =>
      rw [generateRoomCode] at h
      by_cases hc : (mapGet roomsMap (mkCode d)).isSome
      · rw [if_pos hc] at h
        exact ih h
      · rw [if_neg hc] at h
        injection h with h'
        subst h'
        refine ⟨rfl, ?_, ?_, codeChar_inj⟩
        · intro ch hch
          have hch' : ch ∈ [codeChar d.1, codeChar d.2.1, codeChar d.2.2.1,
              codeChar d.2.2.2] := hch
          simp only [List.mem_cons, List.not_mem_nil, or_false] at hch'
          rcases hch' with rfl | rfl | rfl | rfl
          · exact codeChar_range _
          · exact codeChar_range _
          · exact codeChar_range _
          · exact codeChar_range _
        · exact Option.not_isSome_iff_eq_none.mp hc

/-- Witness for `generateRoomCode_spec`: the all-zero draw on an empty store
produces "AAAA". -/
theorem generateRoomCode_spec_witness :
    generateRoomCode [] [((0 : Fin 26), (0 : Fin 26), (0 : Fin 26), (0 : Fin 26))] =
        some "AAAA" ∧
    (("AAAA" : String).length = 4 ∧ (∀ ch ∈ ("AAAA" : String).data, 'A' ≤ ch ∧ ch ≤ 'Z') ∧
     mapGet ([] : List (String × Room)) "AAAA" = none ∧ Function.Injective codeChar) :=
  ⟨by decide,
   generateRoomCode_spec [] [((0 : Fin 26), (0 : Fin 26), (0 : Fin 26), (0 : Fin 26))]
     "AAAA" (by decide)⟩

/-- Initial server state: both maps empty. -/
def demoSt0 : ServerState := { rooms := [], players := [] }

/-- After connection "s1" connects. -/
def demoSt1 : ServerState := handleConnect demoSt0 "s1" 0

/-- After connection "s2" connects. -/
def demoSt2 : ServerState := handleConnect demoSt1 "s2" 1

/-- After "s1" creates room "AAAA". -/
def demoSt3 : ServerState := (handleCreateRoom demoSt2 "s1" "AAAA" 2).1

/-- After "s2" joins room "AAAA". -/
def demoSt4 : ServerState := (handleJoinRoom demoSt3 "s2" "AAAA" 3).1

/-- After the game in room "AAAA" is started. -/
def demoSt5 : ServerState := (handleStartGame demoSt4 "AAAA" 4).1

/-- After a third connection "s3" connects (room "AAAA" is full). -/
def demoSt6 : ServerState := handleConnect demoSt5 "s3" 5

lemma demoSt1_reachable : Reachable demoSt1 :=
  Reachable.step demoSt0 (Event.connect "s1" 0) demoSt1 [] Reachable.init True.intro rfl

lemma demoSt2_reachable : Reachable demoSt2 :=
  Reachable.step demoSt1 (Event.connect "s2" 1) demoSt2 [] demoSt1_reachable True.intro rfl

lemma demoSt3_reachable : Reachable demoSt3 :=
  Reachable.step demoSt2 (Event.create_room "s1" "AAAA" 2) demoSt3
    (handleCreateRoom demoSt2 "s1" "AAAA" 2).2 demoSt2_reachable rfl rfl

lemma demoSt4_reachable : Reachable demoSt4 :=
  Reachable.step demoSt3 (Event.join_room "s2" "AAAA" 3) demoSt4
    (handleJoinRoom demoSt3 "s2" "AAAA" 3).2 demoSt3_reachable True.intro rfl

lemma demoSt5_reachable : Reachable demoSt5 :=
  Reachable.step demoSt4 (Event.start_game "AAAA" 4) demoSt5
    (handleStartGame demoSt4 "AAAA" 4).2 demoSt4_reachable True.intro rfl

lemma demoSt6_reachable : Reachable demoSt6 :=
  Reachable.step demoSt5 (Event.connect "s3" 5) demoSt6 [] demoSt5_reachable True.intro rfl

/-- The room stored under "AAAA" in `demoSt4` (two players, game not started). -/
def demoRoom4 : Room :=
  { code := "AAAA"
    players := ["s1", "s2"]
    gameState :=
      { player1Health := 100, player2Health := 100, gameActive := false
        currentTurn := "player1", round := 1, player1Wins := 0, player2Wins := 0 }
    createdAt := 2
    lastActivity := 3 }

/-- The room stored under "AAAA" in `demoSt5` and `demoSt6` (game running). -/
def demoRoom5 : Room :=
  { code := "AAAA"
    players := ["s1", "s2"]
    gameState :=
      { player1Health := 100, player2Health := 100, gameActive := true
        currentTurn := "player1", round := 1, player1Wins := 0, player2Wins := 0 }
    createdAt := 2
    lastActivity := 4 }

lemma demoSt4_room : mapGet demoSt4.rooms "AAAA" = some demoRoom4 := rfl

lemma demoSt5_room : mapGet demoSt5.rooms "AAAA" = some demoRoom5 := rfl

/-- C6: on every reachable server state, every stored room has a non-empty
player list, and no inbound event makes a handler throw (`stepFn` never
returns `none`; in particular the `game_action` handler's
`room.players[0].id` seat derivation is always defined). -/
theorem no_handler_crash (st : ServerState) (h : Reachable st) :
    (∀ p ∈ st.rooms, p.2.players ≠ []) ∧ (∀ e : Event, stepFn st e ≠ none) := by
  have hInv := reachable_inv h
  constructor
  · intro p hp
    exact (hInv p hp).1
  · intro e
    exact stepFn_no_crash hInv e

/-- Witness for `no_handler_crash` at the concrete reachable state `demoSt5`. -/
theorem no_handler_crash_witness :
    (∀ p ∈ demoSt5.rooms, p.2.players ≠ []) ∧ (∀ e : Event, stepFn demoSt5 e ≠ none) :=
  no_handler_crash demoSt5 demoSt5_reachable

/-- C7: on every reachable state a room's player list never exceeds 2
entries; `join_room` on a room that already has 2 players emits only the
private "room_full" signal and mutates nothing, and `join_room` with an
absent code emits only the private "room_not_found" signal and mutates
nothing. -/
theorem room_capacity_spec (st : ServerState) (h : Reachable st) :
    (∀ p ∈ st.rooms, p.2.players.length ≤ 2) ∧
    (∀ sid code now room, (mapGet st.players sid).isSome = true →
       mapGet st.rooms code = some room → 2 ≤ room.players.length →
       handleJoinRoom st sid code now =
         (st, [⟨Target.toSocket sid, "room_full", Payload.empty⟩])) ∧
    (∀ sid code now, (mapGet st.players sid).isSome = true →
       mapGet st.rooms code = none →
       handleJoinRoom st sid code now =
         (st, [⟨Target.toSocket sid, "room_not_found", Payload.empty⟩])) := by
  have hInv := reachable_inv h
  refine ⟨fun p hp => (hInv p hp).2.1, ?_, ?_⟩
  · intro sid code now room hpl hroom hfull
    obtain ⟨player, hplayer⟩ := Option.isSome_iff_exists.mp hpl
    simp only [handleJoinRoom, hplayer, hroom, if_pos hfull]
  · intro sid code now hpl hroom
    obtain ⟨player, hplayer⟩ := Option.isSome_iff_exists.mp hpl
    simp only [handleJoinRoom, hplayer, hroom]

/-- Witness for `room_capacity_spec`: joining the full room "AAAA" from the
registered connection "s3", and joining the absent room "BBBB". -/
theorem room_capacity_spec_witness :
    handleJoinRoom demoSt6 "s3" "AAAA" 9 =
      (demoSt6, [⟨Target.toSocket "s3", "room_full", Payload.empty⟩]) ∧
    handleJoinRoom demoSt6 "s3" "BBBB" 9 =
      (demoSt6, [⟨Target.toSocket "s3", "room_not_found", Payload.empty⟩]) :=
  ⟨(room_capacity_spec demoSt6 demoSt6_reachable).2.1 "s3" "AAAA" 9 demoRoom5
      rfl rfl (by decide),
   (room_capacity_spec demoSt6 demoSt6_reachable).2.2 "s3" "BBBB" 9 rfl rfl⟩

/-- C8: on a room with exactly 2 players, `start_game` resets both health
values to 100, sets the active flag, sets the turn to seat "player1",
touches `lastActivity`, and leaves the round counter and both win counters
unchanged; `restart_game` does the same but increments the round counter by
one; both are no-ops (state unchanged, nothing emitted) when the room is
absent or does not have exactly 2 players. -/
theorem start_restart_spec (st : ServerState) (code : String) (now : Int) :
    (∀ room room', mapGet st.rooms code = some room → room.players.length = 2 →
       mapGet (handleStartGame st code now).1.rooms code = some room' →
       room'.gameState.player1Health = 100 ∧ room'.gameState.player2Health = 100 ∧
       room'.gameState.gameActive = true ∧ room'.gameState.currentTurn = "player1" ∧
       room'.gameState.round = room.gameState.round ∧
       room'.gameState.player1Wins = room.gameState.player1Wins ∧
       room'.gameState.player2Wins = room.gameState.player2Wins ∧
       room'.players = room.players ∧ room'.lastActivity = now) ∧
    (∀ room room', mapGet st.rooms code = some room → room.players.length = 2 →
       mapGet (handleRestartGame st code now).1.rooms code = some room' →
       room'.gameState.player1Health = 100 ∧ room'.gameState.player2Health = 100 ∧
       room'.gameState.gameActive = true ∧ room'.gameState.currentTurn = "player1" ∧
       room'.gameState.round = room.gameState.round + 1 ∧
       room'.gameState.player1Wins = room.gameState.player1Wins ∧
       room'.gameState.player2Wins = room.gameState.player2Wins ∧
       room'.players = room.players ∧ room'.lastActivity = now) ∧
    (mapGet st.rooms code = none →
       handleStartGame st code now = (st, []) ∧ handleRestartGame st code now = (st, [])) ∧
    (∀ room, mapGet st.rooms code = some room → room.players.length ≠ 2 →
       handleStartGame st code now = (st, []) ∧ handleRestartGame st code now = (st, [])) := by
  refine ⟨?_, ?_, ?_, ?_⟩
  · intro room room' hroom hlen hres
    have hne2 : ¬ room.players.length ≠ 2 := by simp [hlen]
    simp only [handleStartGame, hroom, if_neg hne2, mapGet_mapSet_self,
      Option.some.injEq] at hres
    subst hres
    exact ⟨rfl, rfl, rfl, rfl, rfl, rfl, rfl, rfl, rfl⟩
  · intro room room' hroom hlen hres
    have hne2 : ¬ room.players.length ≠ 2 := by simp [hlen]
    simp only [handleRestartGame, hroom, if_neg hne2, mapGet_mapSet_self,
      Option.some.injEq] at hres
    subst hres
    exact ⟨rfl, rfl, rfl, rfl, rfl, rfl, rfl, rfl, rfl⟩
  · intro hnone
    constructor
    · simp only [handleStartGame, hnone]
    · simp only [handleRestartGame, hnone]
  · intro room hroom hne2
    constructor
    · simp only [handleStartGame, hroom, if_pos hne2]
    · simp only [handleRestartGame, hroom, if_pos hne2]

/-- The room produced by starting the game of `demoSt4` at time 7. -/
def demoRoom4s : Room :=
  { code := "AAAA"
    players := ["s1", "s2"]
    gameState :=
      { player1Health := 100, player2Health := 100, gameActive := true
        currentTurn := "player1", round := 1, player1Wins := 0, player2Wins := 0 }
    createdAt := 2
    lastActivity := 7 }

/-- The room produced by restarting the game of `demoSt4` at time 7. -/
def demoRoom4r : Room :=
  { code := "AAAA"
    players := ["s1", "s2"]
    gameState :=
      { player1Health := 100, player2Health := 100, gameActive := true
        currentTurn := "player1", round := 2, player1Wins := 0, player2Wins := 0 }
    createdAt := 2
    lastActivity := 7 }

/-- Witness for `start_restart_spec` on the concrete 2-player room of
`demoSt4`, for both the start and the restart branch. -/
theorem start_restart_spec_witness :
    (demoRoom4s.gameState.player1Health = 100 ∧ demoRoom4s.gameState.player2Health = 100 ∧
     demoRoom4s.gameState.gameActive = true ∧ demoRoom4s.gameState.currentTurn = "player1" ∧
     demoRoom4s.gameState.round = demoRoom4.gameState.round ∧
     demoRoom4s.gameState.player1Wins = demoRoom4.gameState.player1Wins ∧
     demoRoom4s.gameState.player2Wins = demoRoom4.gameState.player2Wins ∧
     demoRoom4s.players = demoRoom4.players ∧ demoRoom4s.lastActivity = 7) ∧
    (demoRoom4r.gameState.player1Health = 100 ∧ demoRoom4r.gameState.player2Health = 100 ∧
     demoRoom4r.gameState.gameActive = true ∧ demoRoom4r.gameState.currentTurn = "player1" ∧
     demoRoom4r.gameState.round = demoRoom4.gameState.round + 1 ∧
     demoRoom4r.gameState.player1Wins = demoRoom4.gameState.player1Wins ∧
     demoRoom4r.gameState.player2Wins = demoRoom4.gameState.player2Wins ∧
     demoRoom4r.players = demoRoom4.players ∧ demoRoom4r.lastActivity = 7) :=
  ⟨(start_restart_spec demoSt4 "AAAA" 7).1 demoRoom4 demoRoom4s rfl rfl rfl,
   (start_restart_spec demoSt4 "AAAA" 7).2.1 demoRoom4 demoRoom4r rfl rfl rfl⟩

/-- C4: a `game_action` from a connection in the room whose (code-derived)
seat does not hold the current turn is rejected: only the private
"Not your turn!" error is emitted, nothing is broadcast, and the state —
rooms (healths, turn, wins, round, lastActivity) and players — is returned
entirely unchanged. -/
theorem not_your_turn_rejection (st : ServerState) (sid : String) (data : GameActionData)
    (now : Int) (q : ℚ) (room : Room) (firstId : String)
    (hroom : mapGet st.rooms data.roomCode = some room)
    (hact : room.gameState.gameActive = true)
    (hpl : (mapGet st.players sid).isSome = true)
    (hfid : room.players.head? = some firstId)
    (hmem : sid ∈ room.players)
    (hturn : room.gameState.currentTurn ≠ (if firstId = sid then "player1" else "player2")) :
    handleGameAction st sid data now q =
      some (st, [⟨Target.toSocket sid, "error", Payload.errorP "Not your turn!"⟩]) := by
  obtain ⟨player, hplayer⟩ := Option.isSome_iff_exists.mp hpl
  have hact' : ¬ room.gameState.gameActive = false := by simp [hact]
  simp only [handleGameAction, hroom, if_neg hact', hplayer, hfid, if_pos hturn]

/-- Witness for `not_your_turn_rejection`: in `demoSt5` the turn is
"player1" but the sender "s2" sits in seat "player2". -/
theorem not_your_turn_rejection_witness :
    handleGameAction demoSt5 "s2" ⟨"AAAA", "punch", "player2"⟩ 6 0 =
      some (demoSt5, [⟨Target.toSocket "s2", "error", Payload.errorP "Not your turn!"⟩]) :=
  not_your_turn_rejection demoSt5 "s2" ⟨"AAAA", "punch", "player2"⟩ 6 0 demoRoom5 "s1"
    rfl rfl rfl rfl (by decide) (by decide)

lemma resolveDamage_turn (gs : GameState) (dp : String) (d : Int) :
    (resolveDamage gs dp d).1.currentTurn =
      (if dp = "player1" then "player2" else "player1") := by
  by_cases hdp : dp = "player1"
  · by_cases hc1 : gs.player1Health ≤ 0
    · rw [resolveDamage_p1_selfKO hdp hc1, if_pos hdp]
    · by_cases hc2 : max 0 (gs.player2Health - d) ≤ 0
      · rw [resolveDamage_p1_KO hdp hc1 hc2, if_pos hdp]
      · rw [resolveDamage_p1_noKO hdp hc1 hc2, if_pos hdp]
  · by_cases hc1 : max 0 (gs.player1Health - d) ≤ 0
    · rw [resolveDamage_p2_KO hdp hc1, if_neg hdp]
    · by_cases hc2 : gs.player2Health ≤ 0
      · rw [resolveDamage_p2_selfKO hdp hc2 hc1, if_neg hdp]
      · rw [resolveDamage_p2_noKO hdp hc1 hc2, if_neg hdp]

def demoGS6 : GameState :=
  { player1Health := 100, player2Health := 85, gameActive := true
    currentTurn := "player2", round := 1, player1Wins := 0, player2Wins := 0 }

/-- Room "AAAA" after the honest special action. -/
def demoRoom6 : Room :=
  { code := "AAAA", players := ["s1", "s2"], gameState := demoGS6
    createdAt := 2, lastActivity := 6 }

/-- Server state after the honest special action. -/
def demoSt7 : ServerState :=
  { rooms := [("AAAA", demoRoom6)], players := demoSt5.players }

/-- Emissions of the honest special action. -/
def demoEms7 : List Emission :=
  [⟨Target.toRoom "AAAA", "game_action", Payload.actionP "special" "player1" 15⟩,
   ⟨Target.toRoom "AAAA", "game_update", Payload.updateP 100 85 "player2" none 0 0⟩]

lemma demo_special_eq :
    handleGameAction demoSt5 "s1" ⟨"AAAA", "special", "player1"⟩ 6 0 =
      some (demoSt7, demoEms7) := by
  have hd : damageFor "special" (0 : ℚ) = 15 := by
    rw [damageFor_special]
    norm_num
  have hpl : mapGet demoSt5.players "s1" =
      some ⟨"s1", "Anonymous", some "AAAA", true, 0⟩ := rfl
  have hrd : resolveDamage demoRoom5.gameState "player1" 15 = (demoGS6, none) := by decide
  simp only [handleGameAction, demoSt5_room, hpl, hd, hrd]
  decide

/-- Game state of room "AAAA" after the spoofed punch action (payload names
"player2" although "s1" holds the turn): the sender damages itself and the
turn stays "player1". -/
def demoGSx : GameState :=
  { player1Health := 95, player2Health := 100, gameActive := true
    currentTurn := "player1", round := 1, player1Wins := 0, player2Wins := 0 }

/-- Room "AAAA" after the spoofed punch action. -/
def demoRoomX : Room :=
  { code := "AAAA", players := ["s1", "s2"], gameState := demoGSx
    createdAt := 2, lastActivity := 6 }

/-- Server state after the spoofed punch action. -/
def demoStX : ServerState :=
  { rooms := [("AAAA", demoRoomX)], players := demoSt5.players }

/-- Emissions of the spoofed punch action. -/
def demoEmsX : List Emission :=
  [⟨Target.toRoom "AAAA", "game_action", Payload.actionP "punch" "player2" 5⟩,
   ⟨Target.toRoom "AAAA", "game_update", Payload.updateP 95 100 "player1" none 0 0⟩]

lemma demo_spoof_eq :
    handleGameAction demoSt5 "s1" ⟨"AAAA", "punch", "player2"⟩ 6 0 =
      some (demoStX, demoEmsX) := by
  have hd : damageFor "punch" (0 : ℚ) = 5 := by
    rw [damageFor_punch]
    norm_num
  have hpl : mapGet demoSt5.players "s1" =
      some ⟨"s1", "Anonymous", some "AAAA", true, 0⟩ := rfl
  have hrd : resolveDamage demoRoom5.gameState "player2" 5 = (demoGSx, none) := by decide
  simp only [handleGameAction, demoSt5_room, hpl, hd, hrd]
  decide

/-- C2 counterexample: in the running game of `demoSt5` the turn is
"player1" and the sender "s1" holds it, so a `game_action` whose payload
field `player` spoofs "player2" passes the turn check and is accepted (two
room broadcasts are emitted and the state is mutated), yet afterwards the
turn indicator is still "player1": the flip is keyed on the client-supplied
payload, so the turn does not alternate on this accepted action. -/
theorem turn_switch_counterexample :
    handleGameAction demoSt5 "s1" ⟨"AAAA", "punch", "player2"⟩ 6 0 =
      some (demoStX, demoEmsX) ∧
    demoRoom5.gameState.currentTurn = "player1" ∧
    mapGet demoStX.rooms "AAAA" = some demoRoomX ∧
    demoRoomX.gameState.currentTurn = "player1" ∧
    demoEmsX.length = 2 :=
  ⟨demo_spoof_eq, rfl, rfl, rfl, rfl⟩

/-- C2 (amended): after every accepted `game_action` the turn indicator
equals the seat opposite the one named by the payload's `player` field
(`"player2"` when the payload says `"player1"`, else `"player1"`); in
particular it flips — differs from the previous turn — exactly when the
payload's `player` field names the seat that held the turn. -/
theorem turn_switch_spec (st : ServerState) (sid : String) (data : GameActionData)
    (now : Int) (q : ℚ) (room room' : Room) (firstId : String)
    (st' : ServerState) (ems : List Emission)
    (hroom : mapGet st.rooms data.roomCode = some room)
    (hact : room.gameState.gameActive = true)
    (hpl : (mapGet st.players sid).isSome = true)
    (hfid : room.players.head? = some firstId)
    (hturn : room.gameState.currentTurn = (if firstId = sid then "player1" else "player2"))
    (hstep : handleGameAction st sid data now q = some (st', ems))
    (hres : mapGet st'.rooms data.roomCode = some room') :
    room'.gameState.currentTurn =
      (if data.player = "player1" then "player2" else "player1") ∧
    (data.player = room.gameState.currentTurn →
      room'.gameState.currentTurn ≠ room.gameState.currentTurn) := by
  obtain ⟨player, hplayer⟩ := Option.isSome_iff_exists.mp hpl
  have hact' : ¬ room.gameState.gameActive = false := by simp [hact]
  have hnturn : ¬ room.gameState.currentTurn ≠
      (if firstId = sid then "player1" else "player2") := by simp [hturn]
  simp only [handleGameAction, hroom, if_neg hact', hplayer, hfid, if_neg hnturn,
    Option.some.injEq, Prod.mk.injEq] at hstep
  obtain ⟨h1, -⟩ := hstep
  subst h1
  simp only [mapGet_mapSet_self, Option.some.injEq] at hres
  have h1st : room'.gameState.currentTurn =
      (if data.player = "player1" then "player2" else "player1") := by
    rw [← hres]
    exact resolveDamage_turn _ _ _
  refine ⟨h1st, ?_⟩
  intro heq
  rw [h1st]
  by_cases hdp : data.player = "player1"
  · rw [if_pos hdp]
    rw [hdp] at heq
    rw [← heq]
    decide
  · rw [if_neg hdp]
    intro hcon
    exact hdp (heq.trans hcon.symm)

/-- Witness for `turn_switch_spec`: the honest special action of "s1" in
`demoSt5` flips the turn from "player1" to "player2". -/
theorem turn_switch_spec_witness :
    demoRoom6.gameState.currentTurn = (if "player1" = "player1" then "player2" else "player1") ∧
    ("player1" = demoRoom5.gameState.currentTurn →
      demoRoom6.gameState.currentTurn ≠ demoRoom5.gameState.currentTurn) :=
  turn_switch_spec demoSt5 "s1" ⟨"AAAA", "special", "player1"⟩ 6 0 demoRoom5 demoRoom6
    "s1" demoSt7 demoEms7 rfl rfl rfl rfl (by decide) demo_special_eq rfl

/-- C5: for every accepted `game_action` (on a reachable state) the
defending seat's health is clamped at 0 (never negative, exactly 0 when the
damage is at least the current health), only the defending seat's health
changes, and the round ends with exactly one winner — the defending seat's
opponent, i.e. the seat named by the payload (`data.player` when it is
"player1", otherwise seat "player2") — whose cumulative win counter is
incremented while the defender's is not, and the active flag is cleared;
if the defender survives, no winner is declared and the win counters and
active flag are unchanged. -/
theorem damage_clamp_and_win_spec (st : ServerState) (sid : String) (data : GameActionData)
    (now : Int) (q : ℚ) (room room' : Room) (firstId : String)
    (st' : ServerState) (ems : List Emission)
    (hreach : Reachable st)
    (hroom : mapGet st.rooms data.roomCode = some room)
    (hact : room.gameState.gameActive = true)
    (hpl : (mapGet st.players sid).isSome = true)
    (hfid : room.players.head? = some firstId)
    (hturn : room.gameState.currentTurn = (if firstId = sid then "player1" else "player2"))
    (hstep : handleGameAction st sid data now q = some (st', ems))
    (hres : mapGet st'.rooms data.roomCode = some room') :
    (data.player = "player1" →
      room'.gameState.player2Health =
        max 0 (room.gameState.player2Health - damageFor data.action q) ∧
      0 ≤ room'.gameState.player2Health ∧
      room'.gameState.player1Health = room.gameState.player1Health ∧
      (room.gameState.player2Health - damageFor data.action q ≤ 0 →
        room'.gameState.player2Health = 0) ∧
      (room'.gameState.player2Health = 0 →
        room'.gameState.gameActive = false ∧
        room'.gameState.player1Wins = room.gameState.player1Wins + 1 ∧
        room'.gameState.player2Wins = room.gameState.player2Wins ∧
        ems = [⟨Target.toRoom data.roomCode, "game_action",
                 Payload.actionP data.action data.player (damageFor data.action q)⟩,
               ⟨Target.toRoom data.roomCode, "game_update",
                 Payload.updateP room'.gameState.player1Health room'.gameState.player2Health
                   room'.gameState.currentTurn (some "player1")
                   room'.gameState.player1Wins room'.gameState.player2Wins⟩]) ∧
      (0 < room'.gameState.player2Health →
        room'.gameState.gameActive = true ∧
        room'.gameState.player1Wins = room.gameState.player1Wins ∧
        room'.gameState.player2Wins = room.gameState.player2Wins ∧
        ems = [⟨Target.toRoom data.roomCode, "game_action",
                 Payload.actionP data.action data.player (damageFor data.action q)⟩,
               ⟨Target.toRoom data.roomCode, "game_update",
                 Payload.updateP room'.gameState.player1Health room'.gameState.player2Health
                   room'.gameState.currentTurn none
                   room'.gameState.player1Wins room'.gameState.player2Wins⟩])) ∧
    (data.player ≠ "player1" →
      room'.gameState.player1Health =
        max 0 (room.gameState.player1Health - damageFor data.action q) ∧
      0 ≤ room'.gameState.player1Health ∧
      room'.gameState.player2Health = room.gameState.player2Health ∧
      (room.gameState.player1Health - damageFor data.action q ≤ 0 →
        room'.gameState.player1Health = 0) ∧
      (room'.gameState.player1Health = 0 →
        room'.gameState.gameActive = false ∧
        room'.gameState.player2Wins = room.gameState.player2Wins + 1 ∧
        room'.gameState.player1Wins = room.gameState.player1Wins ∧
        ems = [⟨Target.toRoom data.roomCode, "game_action",
                 Payload.actionP data.action data.player (damageFor data.action q)⟩,
               ⟨Target.toRoom data.roomCode, "game_update",
                 Payload.updateP room'.gameState.player1Health room'.gameState.player2Health
                   room'.gameState.currentTurn (some "player2")
                   room'.gameState.player1Wins room'.gameState.player2Wins⟩]) ∧
      (0 < room'.gameState.player1Health →
        room'.gameState.gameActive = true ∧
        room'.gameState.player1Wins = room.gameState.player1Wins ∧
        room'.gameState.player2Wins = room.gameState.player2Wins ∧
        ems = [⟨Target.toRoom data.roomCode, "game_action",
                 Payload.actionP data.action data.player (damageFor data.action q)⟩,
               ⟨Target.toRoom data.roomCode, "game_update",
                 Payload.updateP room'.gameState.player1Health room'.gameState.player2Health
                   room'.gameState.currentTurn none
                   room'.gameState.player1Wins room'.gameState.player2Wins⟩])) := by
  obtain ⟨player, hplayer⟩ := Option.isSome_iff_exists.mp hpl
  have hact' : ¬ room.gameState.gameActive = false := by simp [hact]
  have hnturn : ¬ room.gameState.currentTurn ≠
      (if firstId = sid then "player1" else "player2") := by simp [hturn]
  simp only [handleGameAction, hroom, if_neg hact', hplayer, hfid, if_neg hnturn,
    Option.some.injEq, Prod.mk.injEq] at hstep
  obtain ⟨h1, h2⟩ := hstep
  subst h1
  simp only [mapGet_mapSet_self, Option.some.injEq] at hres
  obtain ⟨-, -, hpos⟩ := reachable_inv hreach _ (mapGet_mem hroom)
  obtain ⟨hp1, hp2⟩ := hpos hact
  subst hres
  rw [← h2]
  constructor
  · intro hdp
    have hc1 : ¬ room.gameState.player1Health ≤ 0 := not_le.mpr hp1
    by_cases hko : max 0 (room.gameState.player2Health - damageFor data.action q) ≤ 0
    · have hr := resolveDamage_p1_KO hdp hc1 hko
      have h0 : max 0 (room.gameState.player2Health - damageFor data.action q) = 0 :=
        le_antisymm hko (le_max_left _ _)
      refine ⟨by simp [hr, h0], by simp [hr], by simp [hr], by simp [hr], ?_, ?_⟩
      · intro h00
        refine ⟨by simp [hr], by simp [hr], by simp [hr], by simp [hr]⟩
      · intro h00
        rw [show ({ room with
            gameState := (resolveDamage room.gameState data.player
              (damageFor data.action q)).1, lastActivity := now } :
            Room).gameState.player2Health = 0 by simp [hr]] at h00
        exact absurd h00 (by norm_num)
    · have hr := resolveDamage_p1_noKO hdp hc1 hko
      refine ⟨by simp [hr], ?_, by simp [hr], ?_, ?_, ?_⟩
      · simp only [hr]
        exact le_max_left _ _
      · intro hsub
        exact absurd (max_le le_rfl hsub) hko
      · intro h00
        rw [show ({ room with
            gameState := (resolveDamage room.gameState data.player
              (damageFor data.action q)).1, lastActivity := now } :
            Room).gameState.player2Health =
            max 0 (room.gameState.player2Health - damageFor data.action q)
          by simp [hr]] at h00
        exact absurd (le_of_eq h00) hko
      · intro h00
        refine ⟨by simp [hr, hact], by simp [hr], by simp [hr], by simp [hr]⟩
  · intro hdp
    have hc2 : ¬ room.gameState.player2Health ≤ 0 := not_le.mpr hp2
    by_cases hko : max 0 (room.gameState.player1Health - damageFor data.action q) ≤ 0
    · have hr := resolveDamage_p2_KO hdp hko
      have h0 : max 0 (room.gameState.player1Health - damageFor data.action q) = 0 :=
        le_antisymm hko (le_max_left _ _)
      refine ⟨by simp [hr, h0], by simp [hr], by simp [hr], by simp [hr], ?_, ?_⟩
      · intro h00
        refine ⟨by simp [hr], by simp [hr], by simp [hr], by simp [hr]⟩
      · intro h00
        rw [show ({ room with
            gameState := (resolveDamage room.gameState data.player
              (damageFor data.action q)).1, lastActivity := now } :
            Room).gameState.player1Health = 0 by simp [hr]] at h00
        exact absurd h00 (by norm_num)
    · have hr := resolveDamage_p2_noKO hdp hko hc2
      refine ⟨by simp [hr], ?_, by simp [hr], ?_, ?_, ?_⟩
      · simp only [hr]
        exact le_max_left _ _
      · intro hsub
        exact absurd (max_le le_rfl hsub) hko
      · intro h00
        rw [show ({ room with
            gameState := (resolveDamage room.gameState data.player
              (damageFor data.action q)).1, lastActivity := now } :
            Room).gameState.player1Health =
            max 0 (room.gameState.player1Health - damageFor data.action q)
          by simp [hr]] at h00
        exact absurd (le_of_eq h00) hko
      · intro h00
        refine ⟨by simp [hr, hact], by simp [hr], by simp [hr], by simp [hr]⟩

/-- Witness for `damage_clamp_and_win_spec`: the honest special action in
`demoSt5` (damage 15, defender "player2" survives with 85 health, no
winner, counters untouched). -/
theorem damage_clamp_and_win_spec_witness :
    demoRoom6.gameState.player2Health =
      max 0 (demoRoom5.gameState.player2Health - damageFor "special" 0) ∧
    0 ≤ demoRoom6.gameState.player2Health ∧
    demoRoom6.gameState.player1Health = demoRoom5.gameState.player1Health ∧
    (demoRoom5.gameState.player2Health - damageFor "special" 0 ≤ 0 →
      demoRoom6.gameState.player2Health = 0) ∧
    (demoRoom6.gameState.player2Health = 0 →
      demoRoom6.gameState.gameActive = false ∧
      demoRoom6.gameState.player1Wins = demoRoom5.gameState.player1Wins + 1 ∧
      demoRoom6.gameState.player2Wins = demoRoom5.gameState.player2Wins ∧
      demoEms7 = [⟨Target.toRoom "AAAA", "game_action",
                    Payload.actionP "special" "player1" (damageFor "special" 0)⟩,
                  ⟨Target.toRoom "AAAA", "game_update",
                    Payload.updateP demoRoom6.gameState.player1Health
                      demoRoom6.gameState.player2Health demoRoom6.gameState.currentTurn
                      (some "player1") demoRoom6.gameState.player1Wins
                      demoRoom6.gameState.player2Wins⟩]) ∧
    (0 < demoRoom6.gameState.player2Health →
      demoRoom6.gameState.gameActive = true ∧
      demoRoom6.gameState.player1Wins = demoRoom5.gameState.player1Wins ∧
      demoRoom6.gameState.player2Wins = demoRoom5.gameState.player2Wins ∧
      demoEms7 = [⟨Target.toRoom "AAAA", "game_action",
                    Payload.actionP "special" "player1" (damageFor "special" 0)⟩,
                  ⟨Target.toRoom "AAAA", "game_update",
                    Payload.updateP demoRoom6.gameState.player1Health
                      demoRoom6.gameState.player2Health demoRoom6.gameState.currentTurn
                      none demoRoom6.gameState.player1Wins
                      demoRoom6.gameState.player2Wins⟩]) :=
  (damage_clamp_and_win_spec demoSt5 "s1" ⟨"AAAA", "special", "player1"⟩ 6 0 demoRoom5
    demoRoom6 "s1" demoSt7 demoEms7 demoSt5_reachable rfl rfl rfl rfl (by decide)
    demo_special_eq rfl).1 rfl

lemma mapDelete_idem {α : Type} (m : List (String × α)) (k : String) :
    mapDelete (mapDelete m k) k = mapDelete m k := by
  induction m with
  | nil => rfl
  | cons p rest ih =>
      obtain ⟨k', v'⟩ := p
      by_cases hk : k' = k
      · simp only [mapDelete, if_pos hk, ih]
      · simp only [mapDelete, if_neg hk, ih]

lemma mapDelete_mapSet {α : Type} (m : List (String × α)) (k : String) (v : α) :
    mapDelete (mapSet m k v) k = mapDelete m k := by
  simp only [mapSet, mapDelete, if_pos rfl, mapDelete_idem]
  simp

lemma demoSt7_reachable : Reachable demoSt7 :=
  Reachable.step demoSt5 (Event.game_action "s1" ⟨"AAAA", "special", "player1"⟩ 6 0)
    demoSt7 demoEms7 demoSt5_reachable ⟨le_refl 0, by norm_num⟩ demo_special_eq

/-- C3 counterexample: in the reachable state `demoSt7` (mid-game, seat B
health 85 after one special hit), disconnecting "s1" leaves the surviving
room's health values untouched (85, not 100) while an explicit leave-room
for the same player resets them to 100 — so disconnect does not perform
the same combat-state reset as leave-room. -/
theorem disconnect_reset_counterexample :
    Reachable demoSt7 ∧
    ((mapGet (handleDisconnect demoSt7 "s1" 8).1.rooms "AAAA").map
        (fun r => r.gameState.player2Health) = some 85 ∧
     (mapGet (handleDisconnect demoSt7 "s1" 8).1.rooms "AAAA").map
        (fun r => r.gameState.gameActive) = some false ∧
     (mapGet (handleLeaveRoom demoSt7 "s1" "AAAA" 8).1.rooms "AAAA").map
        (fun r => r.gameState.player2Health) = some 100) :=
  ⟨demoSt7_reachable, by decide, by decide, by decide⟩

/-- C3 (amended): disconnect handling coincides with leave-room handling —
same removal of the player from its room, same empty-room deletion, same
`player_left` broadcast — followed by unregistering the player, except that
when other players remain, disconnect only clears the active flag and
leaves the health values unchanged, while leave-room additionally resets
both health values to 100; a disconnect with no registered room (or no
registered player) only unregisters, with no other effect. -/
theorem disconnect_vs_leave (st : ServerState) (sid drc : String) (now : Int) :
    ((mapGet st.players sid).isSome = false →
      handleDisconnect st sid now = ({ st with players := mapDelete st.players sid }, [])) ∧
    (∀ player, mapGet st.players sid = some player → player.room = none →
      handleDisconnect st sid now = ({ st with players := mapDelete st.players sid }, [])) ∧
    (∀ player rc, mapGet st.players sid = some player → player.room = some rc →
      mapGet st.rooms rc = none →
      handleDisconnect st sid now = ({ st with players := mapDelete st.players sid }, [])) ∧
    (∀ player rc room, mapGet st.players sid = some player → player.room = some rc →
      mapGet st.rooms rc = some room →
      (handleDisconnect st sid now).2 = (handleLeaveRoom st sid drc now).2 ∧
      (handleDisconnect st sid now).1.players =
        mapDelete (handleLeaveRoom st sid drc now).1.players sid ∧
      ((room.players.filter (fun pid => pid ≠ sid)).length = 0 →
        (handleDisconnect st sid now).1.rooms = (handleLeaveRoom st sid drc now).1.rooms) ∧
      ((room.players.filter (fun pid => pid ≠ sid)).length ≠ 0 →
        (handleLeaveRoom st sid drc now).1.rooms =
          mapSet st.rooms rc
            { room with
              players := room.players.filter (fun pid => pid ≠ sid)
              lastActivity := now
              gameState :=
                { room.gameState with
                  gameActive := false
                  player1Health := 100
                  player2Health := 100 } } ∧
        (handleDisconnect st sid now).1.rooms =
          mapSet st.rooms rc
            { room with
              players := room.players.filter (fun pid => pid ≠ sid)
              lastActivity := now
              gameState := { room.gameState with gameActive := false } })) := by
  refine ⟨?_, ?_, ?_, ?_⟩
  · intro hnone
    have hn : mapGet st.players sid = none := by
      cases hml : mapGet st.players sid with
      | none => rfl
      | some p =>
          rw [hml] at hnone
          simp at hnone
    simp only [handleDisconnect, hn]
  · intro player hplayer hrc
    simp only [handleDisconnect, hplayer, hrc]
  · intro player rc hplayer hrc hm
    simp only [handleDisconnect, hplayer, hrc, hm]
  · intro player rc room hplayer hrc hm
    by_cases hrem : (room.players.filter (fun pid => pid ≠ sid)).length = 0
    · refine ⟨?_, ?_, fun _ => ?_, fun hcon => absurd hrem hcon⟩
      · simp only [handleDisconnect, handleLeaveRoom, hplayer, hrc, hm, if_pos hrem]
      · simp only [handleDisconnect, handleLeaveRoom, hplayer, hrc, hm, if_pos hrem,
          mapDelete_mapSet]
      · simp only [handleDisconnect, handleLeaveRoom, hplayer, hrc, hm, if_pos hrem]
    · refine ⟨?_, ?_, fun hcon => absurd hcon hrem, fun _ => ⟨?_, ?_⟩⟩
      · simp only [handleDisconnect, handleLeaveRoom, hplayer, hrc, hm, if_neg hrem]
      · simp only [handleDisconnect, handleLeaveRoom, hplayer, hrc, hm, if_neg hrem,
          mapDelete_mapSet]
      · simp only [handleLeaveRoom, hplayer, hrc, hm, if_neg hrem]
      · simp only [handleDisconnect, hplayer, hrc, hm, if_neg hrem]

/-- Witness for `disconnect_vs_leave` in the reachable mid-game state
`demoSt7` where "s1" disconnects and "s2" remains. -/
theorem disconnect_vs_leave_witness :
    (handleDisconnect demoSt7 "s1" 8).2 = (handleLeaveRoom demoSt7 "s1" "AAAA" 8).2 ∧
    (handleDisconnect demoSt7 "s1" 8).1.players =
      mapDelete (handleLeaveRoom demoSt7 "s1" "AAAA" 8).1.players "s1" ∧
    ((demoRoom6.players.filter (fun pid => pid ≠ "s1")).length = 0 →
      (handleDisconnect demoSt7 "s1" 8).1.rooms =
        (handleLeaveRoom demoSt7 "s1" "AAAA" 8).1.rooms) ∧
    ((demoRoom6.players.filter (fun pid => pid ≠ "s1")).length ≠ 0 →
      (handleLeaveRoom demoSt7 "s1" "AAAA" 8).1.rooms =
        mapSet demoSt7.rooms "AAAA"
          { demoRoom6 with
            players := demoRoom6.players.filter (fun pid => pid ≠ "s1")
            lastActivity := 8
            gameState :=
              { demoRoom6.gameState with
                gameActive := false
                player1Health := 100
                player2Health := 100 } } ∧
      (handleDisconnect demoSt7 "s1" 8).1.rooms =
        mapSet demoSt7.rooms "AAAA"
          { demoRoom6 with
            players := demoRoom6.players.filter (fun pid => pid ≠ "s1")
            lastActivity := 8
            gameState := { demoRoom6.gameState with gameActive := false } }) :=
  (disconnect_vs_leave demoSt7 "s1" "AAAA" 8).2.2.2
    ⟨"s1", "Anonymous", some "AAAA", true, 0⟩ "AAAA" demoRoom6 rfl rfl rfl

/-- State where "s1" created room "BBBB". -/
def demoDupSt1 : ServerState := (handleCreateRoom demoSt1 "s1" "BBBB" 10).1

/-- State where "s1" additionally joined its own room "BBBB", making the
room's player list ["s1", "s1"]. -/
def demoDupSt2 : ServerState := (handleJoinRoom demoDupSt1 "s1" "BBBB" 11).1

lemma demoDupSt1_reachable : Reachable demoDupSt1 :=
  Reachable.step demoSt1 (Event.create_room "s1" "BBBB" 10) demoDupSt1
    (handleCreateRoom demoSt1 "s1" "BBBB" 10).2 demoSt1_reachable rfl rfl

lemma demoDupSt2_reachable : Reachable demoDupSt2 :=
  Reachable.step demoDupSt1 (Event.join_room "s1" "BBBB" 11) demoDupSt2
    (handleJoinRoom demoDupSt1 "s1" "BBBB" 11).2 demoDupSt1_reachable True.intro rfl

/-- C10 counterexample: the reachable state `demoDupSt2` has a 2-entry room
"BBBB" whose both entries are the leaver "s1" (a client may `join_room` its
own room); its `leave_room` then deletes the room outright, so the round
counter, win counters, room code and creation timestamp are not preserved —
the claim fails for 2-player rooms whose entries all belong to the leaver. -/
theorem leave_frame_counterexample :
    Reachable demoDupSt2 ∧
    (mapGet demoDupSt2.rooms "BBBB").map (fun r => r.players) = some ["s1", "s1"] ∧
    (mapGet demoDupSt2.rooms "BBBB").map (fun r => r.players.length) = some 2 ∧
    mapGet (handleLeaveRoom demoDupSt2 "s1" "BBBB" 12).1.rooms "BBBB" = none :=
  ⟨demoDupSt2_reachable, rfl, rfl, rfl⟩

/-- C10 (amended): for a `leave_room` by a player of a 2-player room, when at
least one entry of the player list does not belong to the leaver (so the
room survives), only the player list, the two health values, the active
flag and the last-activity timestamp of the room change: the round counter,
both win counters, the room code and the creation timestamp are unchanged
(no winner or loser is recorded for the abandoned round); if every entry
belongs to the leaver the room is deleted instead. -/
theorem leave_frame_spec (st : ServerState) (sid drc : String) (now : Int)
    (player : Player) (rc : String) (room room' : Room)
    (hplayer : mapGet st.players sid = some player)
    (hrc : player.room = some rc)
    (hm : mapGet st.rooms rc = some room)
    (hlen : room.players.length = 2)
    (hmem : sid ∈ room.players)
    (hrem : (room.players.filter (fun pid => pid ≠ sid)).length ≠ 0)
    (hres : mapGet (handleLeaveRoom st sid drc now).1.rooms rc = some room') :
    room'.code = room.code ∧
    room'.createdAt = room.createdAt ∧
    room'.gameState.round = room.gameState.round ∧
    room'.gameState.player1Wins = room.gameState.player1Wins ∧
    room'.gameState.player2Wins = room.gameState.player2Wins ∧
    room'.players = room.players.filter (fun pid => pid ≠ sid) ∧
    room'.gameState.player1Health = 100 ∧
    room'.gameState.player2Health = 100 ∧
    room'.gameState.gameActive = false ∧
    room'.lastActivity = now := by
  simp only [handleLeaveRoom, hplayer, hrc, hm, if_neg hrem, mapGet_mapSet_self,
    Option.some.injEq] at hres
  subst hres
  exact ⟨rfl, rfl, rfl, rfl, rfl, rfl, rfl, rfl, rfl, rfl⟩

/-- The surviving room of "AAAA" after "s1" leaves `demoSt5` at time 9. -/
def demoRoomL : Room :=
  { code := "AAAA", players := ["s2"]
    gameState :=
      { player1Health := 100, player2Health := 100, gameActive := false
        currentTurn := "player1", round := 1, player1Wins := 0, player2Wins := 0 }
    createdAt := 2, lastActivity := 9 }

/-- Witness for `leave_frame_spec`: "s1" leaves the 2-player room of
`demoSt5`; "s2" remains and the frame facts hold concretely. -/
theorem leave_frame_spec_witness :
    demoRoomL.code = demoRoom5.code ∧
    demoRoomL.createdAt = demoRoom5.createdAt ∧
    demoRoomL.gameState.round = demoRoom5.gameState.round ∧
    demoRoomL.gameState.player1Wins = demoRoom5.gameState.player1Wins ∧
    demoRoomL.gameState.player2Wins = demoRoom5.gameState.player2Wins ∧
    demoRoomL.players = demoRoom5.players.filter (fun pid => pid ≠ "s1") ∧
    demoRoomL.gameState.player1Health = 100 ∧
    demoRoomL.gameState.player2Health = 100 ∧
    demoRoomL.gameState.gameActive = false ∧
    demoRoomL.lastActivity = 9 :=
  leave_frame_spec demoSt5 "s1" "AAAA" 9 ⟨"s1", "Anonymous", some "AAAA", true, 0⟩
    "AAAA" demoRoom5 demoRoomL rfl rfl rfl rfl (by decide) (by decide) rfl
